import Mathlib

/-!
Shallow embedding of src/shortcut_server.py (shortcut-mcp): the tool
dispatcher `handle_call_tool`, the safety-gated API client
`make_shortcut_request`, and the resource formatters.  Python dicts are
modelled as association lists of string keys to JSON values; Python
exceptions are modelled as an error type whose constructors record which
Python exception class they correspond to, because the dispatcher catches
only `httpx.HTTPError`.  The network is an oracle function inside an
environment record, and every function that may touch the network also
returns the list of network calls it issued, so that absence of network
activity is provable.
-/

/-- JSON values, as decoded by the Python json layer.  Floating point
numbers do not occur on any path modelled here, so numbers are integers. -/
inductive Json where
  | null : Json
  | bool : Bool → Json
  | num : Int → Json
  | str : String → Json
  | arr : List Json → Json
  | obj : List (String × Json) → Json

mutual

/-- Python str() of a JSON value, as interpolated by an f-string:
strings render bare, None/True/False render the Python way, containers
render with repr-quoted strings inside. -/
def Json.pyStr : Json → String
  | Json.null => "None"
  | Json.bool true => "True"
  | Json.bool false => "False"
  | Json.num n => toString n
  | Json.str s => s
  | Json.arr xs => "[" ++ Json.reprList xs ++ "]"
  | Json.obj fs => "\x7b" ++ Json.reprFields fs ++ "\x7d"

/-- Python repr() of a JSON value (used for elements inside containers). -/
def Json.pyRepr : Json → String
  | Json.null => "None"
  | Json.bool true => "True"
  | Json.bool false => "False"
  | Json.num n => toString n
  | Json.str s => "\x27" ++ s ++ "\x27"
  | Json.arr xs => "[" ++ Json.reprList xs ++ "]"
  | Json.obj fs => "\x7b" ++ Json.reprFields fs ++ "\x7d"

def Json.reprList : List Json → String
  | [] => ""
  | [x] => Json.pyRepr x
  | x :: xs => Json.pyRepr x ++ ", " ++ Json.reprList xs

def Json.reprFields : List (String × Json) → String
  | [] => ""
  | [(k, v)] => "\x27" ++ k ++ "\x27: " ++ Json.pyRepr v
  | (k, v) :: fs => "\x27" ++ k ++ "\x27: " ++ Json.pyRepr v ++ ", " ++ Json.reprFields fs

end

/-- Dictionary lookup on a JSON object: `d.get(k)` / `d[k]` access.
Returns none when the key is absent or the value is not an object. -/
def Json.lookup : Json → String → Option Json
  | Json.obj fs, k => (fs.find? (fun p => p.1 == k)).map (fun p => p.2)
  | _, _ => none

/-- Python truthiness: `not x` is true exactly on these values. -/
def Json.falsy : Json → Bool
  | Json.null => true
  | Json.bool b => !b
  | Json.num n => n == 0
  | Json.str s => s.isEmpty
  | Json.arr xs => xs.isEmpty
  | Json.obj fs => fs.isEmpty

def Json.truthy (j : Json) : Bool := !j.falsy

/-- Python `record.get(k, default)` followed by f-string interpolation:
the field rendered by str(), or the literal default when absent. -/
def jsonGetStr (j : Json) (k : String) (dflt : String) : String :=
  match Json.lookup j k with
  | some v => v.pyStr
  | none => dflt

/-- Python `record.get(k1, default).get(k2, default)` followed by f-string
interpolation, the nested defensive access used for workflow_state and
milestone fields. -/
def nestedGetStr (j : Json) (k1 k2 : String) (dflt : String) : String :=
  match Json.lookup j k1 with
  | some m =>
    match Json.lookup m k2 with
    | some v => v.pyStr
    | none => dflt
  | none => dflt

/-- Python `record.get(k, [])` where the handlers then iterate the value; the
callers only ever supply lists here (a non-list value would raise a
TypeError further down in Python, outside the modelled behaviours). -/
def jsonGetListD (j : Json) (k : String) : List Json :=
  match Json.lookup j k with
  | some (Json.arr xs) => xs
  | some _ => []
  | none => []

/-- The Python exceptions the server can raise, tagged by origin.
policyViolation, configurationError, missingArguments and unknownTool are
ValueError in the source; missingField is KeyError; typeError is
TypeError; remoteError is httpx.HTTPError (raise_for_status or a
connection failure).  The dispatcher catch clause matches only
remoteError. -/
inductive ShortcutError where
  | policyViolation : String → ShortcutError
  | configurationError : String → ShortcutError
  | remoteError : String → ShortcutError
  | missingField : String → ShortcutError
  | typeError : String → ShortcutError
  | missingArguments : ShortcutError
  | unknownTool : String → ShortcutError
deriving DecidableEq

/-- Whether `except httpx.HTTPError` catches this exception. -/
def ShortcutError.isHTTPError : ShortcutError → Bool
  | ShortcutError.remoteError _ => true
  | _ => false

/-- Python str(e) of the exception, as interpolated into the error block. -/
def ShortcutError.pyMessage : ShortcutError → String
  | ShortcutError.policyViolation m => m
  | ShortcutError.configurationError m => m
  | ShortcutError.remoteError m => m
  | ShortcutError.missingField k => "\x27" ++ k ++ "\x27"
  | ShortcutError.typeError m => m
  | ShortcutError.missingArguments => "Missing arguments"
  | ShortcutError.unknownTool n => "Unknown tool: " ++ n

/-- One outbound HTTP request as handed to httpx: method, endpoint path
(relative to the base URL), optional JSON body, query params. -/
structure NetCall where
  method : String
  endpoint : String
  jsonBody : Option Json
  params : List (String × Json)

/-- Process environment: the SHORTCUT_API_TOKEN value (none when the
variable is unset) and the network as an oracle from a request to either
a decoded 2xx JSON body or an httpx.HTTPError message. -/
structure ApiEnv where
  token : Option String
  net : NetCall → Except String Json

/-- Python `if not SHORTCUT_API_TOKEN`: unset or empty string. -/
def tokenMissing (env : ApiEnv) : Bool :=
  match env.token with
  | none => true
  | some s => s.isEmpty

/-- Python str.endswith, expressed on the character sequences of the
strings (the byte-position based stdlib endsWith does not reduce in the
kernel; this form is the same function on our inputs). -/
def strEndsWith (s suffix : String) : Bool := List.isSuffixOf suffix.data s.data

/-- make_shortcut_request: safety checks in source order (method
allow-list, POST endpoint-suffix allow-list, token present), then one
network call.  Returns the outcome and the list of network calls issued. -/
def make_shortcut_request (env : ApiEnv) (method : String) (endpoint : String)
    (jsonBody : Option Json) (params : List (String × Json)) :
    Except ShortcutError Json × List NetCall :=
  if !(method == "GET" || method == "POST") then
    (Except.error (ShortcutError.policyViolation
      ("Method " ++ method ++ " is not allowed for safety reasons. Only GET and POST are permitted.")), [])
  else if method == "POST" && !(["stories", "epics", "objectives"].any (fun x => strEndsWith endpoint x)) then
    (Except.error (ShortcutError.policyViolation
      ("POST requests are only allowed for creation endpoints, not for " ++ endpoint)), [])
  else if tokenMissing env then
    (Except.error (ShortcutError.configurationError
      "SHORTCUT_API_TOKEN environment variable not set"), [])
  else
    let call : NetCall := ⟨method, endpoint, jsonBody, params⟩
    match env.net call with
    | Except.ok j => (Except.ok j, [call])
    | Except.error msg => (Except.error (ShortcutError.remoteError msg), [call])

/-- format_objective.  The strict access objective["name"] raises
KeyError when absent; every other field is defensive with a default. -/
def format_objective (objective : Json) : Except ShortcutError String :=
  match Json.lookup objective "name" with
  | none => Except.error (ShortcutError.missingField "name")
  | some nm =>
    Except.ok ("Objective: " ++ nm.pyStr ++ "\n" ++
      "Status: " ++ jsonGetStr objective "status" "Unknown" ++ "\n" ++
      "Description: " ++ jsonGetStr objective "description" "No description" ++ "\n" ++
      "URL: " ++ jsonGetStr objective "app_url" "" ++ "\n" ++
      "---")

/-- format_epic.  epic["name"] is strict; milestone name is the nested
defensive access epic.get("milestone", \x7b\x7d).get("name", "None"). -/
def format_epic (epic : Json) : Except ShortcutError String :=
  match Json.lookup epic "name" with
  | none => Except.error (ShortcutError.missingField "name")
  | some nm =>
    Except.ok ("Epic: " ++ nm.pyStr ++ "\n" ++
      "Status: " ++ jsonGetStr epic "state" "Unknown" ++ "\n" ++
      "Description: " ++ jsonGetStr epic "description" "No description" ++ "\n" ++
      "Milestone: " ++ nestedGetStr epic "milestone" "name" "None" ++ "\n" ++
      "URL: " ++ jsonGetStr epic "app_url" "" ++ "\n" ++
      "---")

/-- format_story.  story["id"] then story["name"] are strict, in the
f-string evaluation order; the rest is defensive. -/
def format_story (story : Json) : Except ShortcutError String :=
  match Json.lookup story "id" with
  | none => Except.error (ShortcutError.missingField "id")
  | some idv =>
    match Json.lookup story "name" with
    | none => Except.error (ShortcutError.missingField "name")
    | some nm =>
      Except.ok ("Story " ++ idv.pyStr ++ ": " ++ nm.pyStr ++ "\n" ++
        "Status: " ++ nestedGetStr story "workflow_state" "name" "Unknown" ++ "\n" ++
        "Type: " ++ jsonGetStr story "story_type" "Unknown" ++ "\n" ++
        "Description: " ++ jsonGetStr story "description" "No description" ++ "\n" ++
        "URL: " ++ jsonGetStr story "app_url" "" ++ "\n" ++
        "---")

/-- The per-project formatting inlined in the list-projects handler:
project["id"] and project["name"] are strict, description is defensive. -/
def format_project (project : Json) : Except ShortcutError String :=
  match Json.lookup project "id" with
  | none => Except.error (ShortcutError.missingField "id")
  | some idv =>
    match Json.lookup project "name" with
    | none => Except.error (ShortcutError.missingField "name")
    | some nm =>
      Except.ok ("Project ID: " ++ idv.pyStr ++ "\n" ++
        "Name: " ++ nm.pyStr ++ "\n" ++
        "Description: " ++ jsonGetStr project "description" "No description" ++ "\n" ++
        "---")

/-- Sequential fallible map, the evaluation order of a Python list
comprehension whose element expression may raise. -/
def mapExcept (f : Json → Except ShortcutError String) :
    List Json → Except ShortcutError (List String)
  | [] => Except.ok []
  | x :: xs =>
    match f x with
    | Except.error e => Except.error e
    | Except.ok y =>
      match mapExcept f xs with
      | Except.error e => Except.error e
      | Except.ok ys => Except.ok (y :: ys)

/-- The per-state line of the list-workflows handler:
state["name"] and state["id"] are strict. -/
def format_state (state : Json) : Except ShortcutError String :=
  match Json.lookup state "name" with
  | none => Except.error (ShortcutError.missingField "name")
  | some nm =>
    match Json.lookup state "id" with
    | none => Except.error (ShortcutError.missingField "id")
    | some idv =>
      Except.ok ("- " ++ nm.pyStr ++ " (ID: " ++ idv.pyStr ++ ")")

/-- The per-workflow formatting inlined in the list-workflows handler:
the states comprehension is evaluated first (its strict accesses raise
first), then workflow["name"] is strict. -/
def format_workflow (workflow : Json) : Except ShortcutError String :=
  match mapExcept format_state (jsonGetListD workflow "states") with
  | Except.error e => Except.error e
  | Except.ok states =>
    match Json.lookup workflow "name" with
    | none => Except.error (ShortcutError.missingField "name")
    | some nm =>
      Except.ok ("Workflow: " ++ nm.pyStr ++ "\n" ++
        "States:\n" ++ String.intercalate "\n" states ++ "\n" ++
        "---")

/-- The tool argument map (a Python dict with string keys). -/
abbrev Args := List (String × Json)

/-- Python `arguments.get(k)` and `arguments[k]` lookup. -/
def dictGet (args : Args) (k : String) : Option Json :=
  (args.find? (fun p => p.1 == k)).map (fun p => p.2)

/-- Python `if not arguments`: None or the empty dict. -/
def argsFalsy : Option Args → Bool
  | none => true
  | some args => args.isEmpty

/-- The relevant part of each catalog entry from handle_list_tools: the
tool name, the declared required fields and the declared enum choices. -/
structure ToolDef where
  name : String
  required : List String
  enums : List (String × List String)

/-- The Tool Catalog, as declared by handle_list_tools. -/
def toolCatalog : List ToolDef :=
  [⟨"search-stories", ["query"], []⟩,
   ⟨"create-story", ["name", "description", "story_type", "project_id"],
     [("story_type", ["feature", "bug", "chore"])]⟩,
   ⟨"list-projects", [], []⟩,
   ⟨"list-workflows", [], []⟩,
   ⟨"list-objectives", [], [("status", ["active", "draft", "closed"])]⟩,
   ⟨"create-objective", ["name", "description", "status"],
     [("status", ["active", "draft", "closed"])]⟩,
   ⟨"list-epics", [], [("status", ["to do", "in progress", "done"])]⟩,
   ⟨"create-epic", ["name", "description"], []⟩]

def toolNames : List String := toolCatalog.map ToolDef.name

/-- The outcome of a tool handler: either the returned list of Text
block contents or an escaped exception, plus the network calls issued. -/
abbrev ToolOutcome := Except ShortcutError (List String) × List NetCall

/-- Sequencing of `await make_shortcut_request(...)` with the rest of a
handler body: an exception propagates, a decoded response continues. -/
def thenFormat (r : Except ShortcutError Json × List NetCall)
    (k : Json → Except ShortcutError (List String)) : ToolOutcome :=
  match r with
  | (Except.error e, calls) => (Except.error e, calls)
  | (Except.ok j, calls) => (k j, calls)

/-- Python `arguments[k]` strict access: KeyError when absent, else continue. -/
def requireArg (args : Args) (k : String) (cont : Json → ToolOutcome) : ToolOutcome :=
  match dictGet args k with
  | none => (Except.error (ShortcutError.missingField k), [])
  | some v => cont v

/-- The body of the try block of handle_call_tool: the if/elif chain on
the tool name, in source order, ending in the unknown-tool ValueError.
Each list/search handler iterates the decoded response; a response that
is not a JSON list where the handler iterates it would raise a TypeError
in Python, modelled by the typeError constructor. -/
def call_tool_body (env : ApiEnv) (name : String) (arguments : Args) : ToolOutcome :=
  if name == "search-stories" then
    let query := (dictGet arguments "query").getD Json.null
    thenFormat (make_shortcut_request env "GET" "search/stories" none [("query", query)])
      (fun search_results =>
        let storiesVal := (Json.lookup search_results "data").getD (Json.arr [])
        if storiesVal.falsy then
          Except.ok ["No stories found matching query: " ++ query.pyStr]
        else
          match storiesVal with
          | Json.arr stories =>
            match mapExcept format_story (stories.take 10) with
            | Except.error e => Except.error e
            | Except.ok formatted =>
              Except.ok ["Found stories:\n\n" ++ String.intercalate "\n" formatted]
          | _ => Except.error (ShortcutError.typeError "search data is not a list"))
  else if name == "create-story" then
    requireArg arguments "name" (fun nm =>
    requireArg arguments "description" (fun descr =>
    requireArg arguments "story_type" (fun st =>
    requireArg arguments "project_id" (fun pid =>
      let story_data := Json.obj [("name", nm), ("description", descr),
        ("story_type", st), ("project_id", pid)]
      thenFormat (make_shortcut_request env "POST" "stories" (some story_data) [])
        (fun new_story =>
          match format_story new_story with
          | Except.error e => Except.error e
          | Except.ok s => Except.ok ["Created new story:\n\n" ++ s])))))
  else if name == "list-projects" then
    thenFormat (make_shortcut_request env "GET" "projects" none [])
      (fun projects =>
        match projects with
        | Json.arr ps =>
          match mapExcept format_project ps with
          | Except.error e => Except.error e
          | Except.ok formatted =>
            Except.ok ["Available projects:\n\n" ++ String.intercalate "\n" formatted]
        | _ => Except.error (ShortcutError.typeError "projects response is not a list"))
  else if name == "list-workflows" then
    thenFormat (make_shortcut_request env "GET" "workflows" none [])
      (fun workflows =>
        match workflows with
        | Json.arr ws =>
          match mapExcept format_workflow ws with
          | Except.error e => Except.error e
          | Except.ok formatted =>
            Except.ok ["Available workflows and states:\n\n" ++ String.intercalate "\n" formatted]
        | _ => Except.error (ShortcutError.typeError "workflows response is not a list"))
  else if name == "list-objectives" then
    let params :=
      match dictGet arguments "status" with
      | some v => if v.truthy then [("status", v)] else []
      | none => []
    thenFormat (make_shortcut_request env "GET" "objectives" none params)
      (fun objectives =>
        if objectives.falsy then
          Except.ok ["No objectives found"]
        else
          match objectives with
          | Json.arr objs =>
            match mapExcept format_objective objs with
            | Except.error e => Except.error e
            | Except.ok formatted =>
              Except.ok ["Objectives:\n\n" ++ String.intercalate "\n" formatted]
          | _ => Except.error (ShortcutError.typeError "objectives response is not a list"))
  else if name == "create-objective" then
    requireArg arguments "name" (fun nm =>
    requireArg arguments "description" (fun descr =>
    requireArg arguments "status" (fun st =>
      let objective_data := Json.obj [("name", nm), ("description", descr), ("status", st)]
      thenFormat (make_shortcut_request env "POST" "objectives" (some objective_data) [])
        (fun new_objective =>
          match format_objective new_objective with
          | Except.error e => Except.error e
          | Except.ok s => Except.ok ["Created new objective:\n\n" ++ s]))))
  else if name == "list-epics" then
    let params :=
      match dictGet arguments "status" with
      | some v => if v.truthy then [("status", v)] else []
      | none => []
    thenFormat (make_shortcut_request env "GET" "epics" none params)
      (fun epics =>
        if epics.falsy then
          Except.ok ["No epics found"]
        else
          match epics with
          | Json.arr es =>
            match mapExcept format_epic es with
            | Except.error e => Except.error e
            | Except.ok formatted =>
              Except.ok ["Epics:\n\n" ++ String.intercalate "\n" formatted]
          | _ => Except.error (ShortcutError.typeError "epics response is not a list"))
  else if name == "create-epic" then
    requireArg arguments "name" (fun nm =>
    requireArg arguments "description" (fun descr =>
      let epic_data := [("name", nm), ("description", descr)]
      let epic_data :=
        match dictGet arguments "milestone_id" with
        | some m => if m.truthy then epic_data ++ [("milestone_id", m)] else epic_data
        | none => epic_data
      thenFormat (make_shortcut_request env "POST" "epics" (some (Json.obj epic_data)) [])
        (fun new_epic =>
          match format_epic new_epic with
          | Except.error e => Except.error e
          | Except.ok s => Except.ok ["Created new epic:\n\n" ++ s])))
  else
    (Except.error (ShortcutError.unknownTool name), [])

/-- handle_call_tool: the missing-arguments ValueError is raised before
the try block, for every tool; the try/except around the body catches
only httpx.HTTPError and converts it to the API-request-failed block. -/
def handle_call_tool (env : ApiEnv) (name : String) (arguments : Option Args) :
    Except ShortcutError (List String) × List NetCall :=
  if argsFalsy arguments then
    (Except.error ShortcutError.missingArguments, [])
  else
    match call_tool_body env name (arguments.getD []) with
    | (Except.error e, calls) =>
      if e.isHTTPError then
        (Except.ok ["API request failed: " ++ e.pyMessage], calls)
      else
        (Except.error e, calls)
    | (Except.ok blocks, calls) => (Except.ok blocks, calls)

/-! Fixtures used by concrete instances below. -/

/-- Fixture network: every request yields a decoded empty JSON list. -/
def netEmptyList : NetCall → Except String Json := fun _ => Except.ok (Json.arr [])

/-- Environment with a configured token and the empty-list network. -/
def envEmptyLists : ApiEnv := ⟨some "token-fixture", netEmptyList⟩

/-- Environment in which SHORTCUT_API_TOKEN is unset. -/
def envNoToken : ApiEnv := ⟨none, netEmptyList⟩

/-! Substring containment over strings, used to state the literal
"contains the substring" parts of the spec sentences. -/

/-- Whether the first character list is an initial segment of the second. -/
def charsHasPre : List Char → List Char → Bool
  | [], _ => true
  | _ :: _, [] => false
  | a :: as, b :: bs => a == b && charsHasPre as bs

/-- Whether the first character list occurs contiguously in the second. -/
def charsInfix (n : List Char) : List Char → Bool
  | [] => n.isEmpty
  | c :: rest => charsHasPre n (c :: rest) || charsInfix n rest

/-- The needle occurs as a contiguous substring of the haystack. -/
def strContains (hay needle : String) : Bool := charsInfix needle.data hay.data

lemma charsHasPre_append_self (n r : List Char) : charsHasPre n (n ++ r) = true := by
  induction n with
  | nil => rfl
  | cons a as ih => simp [charsHasPre, ih]

lemma charsInfix_append_self (n r : List Char) : charsInfix n (n ++ r) = true := by
  cases n with
  | nil =>
    cases r with
    | nil => rfl
    | cons c cs => simp [charsInfix, charsHasPre]
  | cons a as =>
    simp [charsInfix, charsHasPre, charsHasPre_append_self]

lemma charsInfix_append_left (a : List Char) (n l : List Char)
    (h : charsInfix n l = true) : charsInfix n (a ++ l) = true := by
  induction a with
  | nil => simpa using h
  | cons c cs ih =>
    simp [charsInfix, ih]

/-- A string of the shape a ++ b ++ c contains b. -/
lemma strContains_append_mid (a b c : String) : strContains (a ++ b ++ c) b = true := by
  unfold strContains
  have hd : (a ++ b ++ c).data = a.data ++ (b.data ++ c.data) := by
    simp [String.data_append]
  rw [hd]
  exact charsInfix_append_left _ _ _ (charsInfix_append_self _ _)

/-! Helper lemmas about the embedding. -/

/-- mapExcept preserves length on success. -/
lemma mapExcept_ok_length (f : Json → Except ShortcutError String) :
    ∀ xs ys, mapExcept f xs = Except.ok ys → ys.length = xs.length := by
  intro xs
  induction xs with
  | nil =>
    intro ys h
    unfold mapExcept at h
    injection h with h
    rw [← h]
    rfl
  | cons x xs ih =>
    intro ys h
    unfold mapExcept at h
    cases hfx : f x with
    | error e => rw [hfx] at h; cases h
    | ok y =>
      rw [hfx] at h
      cases hrest : mapExcept f xs with
      | error e => rw [hrest] at h; cases h
      | ok ys2 =>
        rw [hrest] at h
        injection h with h
        rw [← h]
        simp [ih ys2 hrest]

/-- Every error of the API client is a policy violation, a configuration
error or a remote (HTTP) error. -/
lemma make_shortcut_request_error_kind (env : ApiEnv) (method endpoint : String)
    (jsonBody : Option Json) (params : List (String × Json)) (e : ShortcutError)
    (h : (make_shortcut_request env method endpoint jsonBody params).1 = Except.error e) :
    (∃ m, e = ShortcutError.policyViolation m) ∨
      (∃ m, e = ShortcutError.configurationError m) ∨
      (∃ m, e = ShortcutError.remoteError m) := by
  unfold make_shortcut_request at h
  split at h
  · exact Or.inl ⟨_, by injection h with h; exact h.symm⟩
  · split at h
    · exact Or.inl ⟨_, by injection h with h; exact h.symm⟩
    · split at h
      · exact Or.inr (Or.inl ⟨_, by injection h with h; exact h.symm⟩)
      · simp only [] at h
        split at h
        · cases h
        · exact Or.inr (Or.inr ⟨_, by injection h with h; exact h.symm⟩)

/-- After the POST suffix allow-list passes, no policy violation is
raised: the remaining failure modes are configuration and remote errors. -/
lemma post_pass_no_policy (env : ApiEnv) (endpoint : String)
    (jsonBody : Option Json) (params : List (String × Json))
    (h : (["stories", "epics", "objectives"].any (fun x => strEndsWith endpoint x)) = true) :
    ∀ m, (make_shortcut_request env "POST" endpoint jsonBody params).1 ≠
      Except.error (ShortcutError.policyViolation m) := by
  intro m hcontra
  unfold make_shortcut_request at hcontra
  rw [if_neg (by simp), if_neg (by simp [h])] at hcontra
  split at hcontra
  · exact ShortcutError.noConfusion (Except.error.inj hcontra)
  · cases henv : env.net ⟨"POST", endpoint, jsonBody, params⟩ with
    | ok j => simp [henv] at hcontra
    | error msg => simp [henv] at hcontra

/-! Claim theorems. -/

/-- C2: for every endpoint and every method outside the set containing
GET and POST, the request fails with a policy violation before any
network activity (the call list is empty) and independently of the
credential or the network (the outcome is the same for every
environment). -/
theorem C2_non_get_post_policy (env : ApiEnv) (method endpoint : String)
    (jsonBody : Option Json) (params : List (String × Json))
    (h : ¬(method = "GET" ∨ method = "POST")) :
    make_shortcut_request env method endpoint jsonBody params =
      (Except.error (ShortcutError.policyViolation
        ("Method " ++ method ++ " is not allowed for safety reasons. Only GET and POST are permitted.")), []) := by
  have h1 : (method == "GET" || method == "POST") = false := by
    simp only [Bool.or_eq_false_iff, beq_eq_false_iff_ne, ne_eq]
    exact ⟨fun hg => h (Or.inl hg), fun hp => h (Or.inr hp)⟩
  unfold make_shortcut_request
  rw [if_pos (by rw [h1]; rfl)]

theorem C2_non_get_post_policy_witness :
    ¬("DELETE" = "GET" ∨ "DELETE" = "POST") ∧
    make_shortcut_request envEmptyLists "DELETE" "stories/1" none [] =
      (Except.error (ShortcutError.policyViolation
        "Method DELETE is not allowed for safety reasons. Only GET and POST are permitted."), []) :=
  ⟨by decide, C2_non_get_post_policy envEmptyLists "DELETE" "stories/1" none [] (by decide)⟩

/-- C3: a POST fails with the endpoint policy violation exactly when the
endpoint does not end with one of the allow-list suffixes stories, epics,
objectives; when a suffix matches, the policy check never fails (the
outcome is never a policy violation). -/
theorem C3_post_policy_iff (env : ApiEnv) (endpoint : String)
    (jsonBody : Option Json) (params : List (String × Json)) :
    ((["stories", "epics", "objectives"].any (fun x => strEndsWith endpoint x)) = false →
      make_shortcut_request env "POST" endpoint jsonBody params =
        (Except.error (ShortcutError.policyViolation
          ("POST requests are only allowed for creation endpoints, not for " ++ endpoint)), [])) ∧
    ((["stories", "epics", "objectives"].any (fun x => strEndsWith endpoint x)) = true →
      ∀ m, (make_shortcut_request env "POST" endpoint jsonBody params).1 ≠
        Except.error (ShortcutError.policyViolation m)) := by
  constructor
  · intro h
    unfold make_shortcut_request
    rw [if_neg (by simp), if_pos (by rw [h]; rfl)]
  · intro h
    exact post_pass_no_policy env endpoint jsonBody params h

theorem C3_post_policy_iff_witness :
    ((["stories", "epics", "objectives"].any (fun x => strEndsWith "workflows" x)) = false ∧
      make_shortcut_request envEmptyLists "POST" "workflows" none [] =
        (Except.error (ShortcutError.policyViolation
          "POST requests are only allowed for creation endpoints, not for workflows"), [])) ∧
    ((["stories", "epics", "objectives"].any (fun x => strEndsWith "stories" x)) = true ∧
      ∀ m, (make_shortcut_request envEmptyLists "POST" "stories" none []).1 ≠
        Except.error (ShortcutError.policyViolation m)) :=
  ⟨⟨by decide, (C3_post_policy_iff envEmptyLists "workflows" none []).1 (by decide)⟩,
   ⟨by decide, (C3_post_policy_iff envEmptyLists "stories" none []).2 (by decide)⟩⟩

/-- C10: the POST policy is pure suffix matching: every endpoint ending
in stories, epics or objectives — including non-creation paths such as
search/stories — passes the endpoint policy check (the outcome is never
a policy violation), not only the three exact creation paths. -/
theorem C10_policy_is_suffix_matching (env : ApiEnv) (endpoint : String)
    (jsonBody : Option Json) (params : List (String × Json))
    (h : strEndsWith endpoint "stories" = true ∨ strEndsWith endpoint "epics" = true ∨
      strEndsWith endpoint "objectives" = true) :
    ∀ m, (make_shortcut_request env "POST" endpoint jsonBody params).1 ≠
      Except.error (ShortcutError.policyViolation m) := by
  apply post_pass_no_policy
  simp only [List.any_cons, List.any_nil, Bool.or_eq_true, Bool.or_false]
  rcases h with h | h | h
  · exact Or.inl h
  · exact Or.inr (Or.inl h)
  · exact Or.inr (Or.inr h)

theorem C10_policy_is_suffix_matching_witness :
    (strEndsWith "search/stories" "stories" = true ∨ strEndsWith "search/stories" "epics" = true ∨
      strEndsWith "search/stories" "objectives" = true) ∧
    ∀ m, (make_shortcut_request envEmptyLists "POST" "search/stories" none []).1 ≠
      Except.error (ShortcutError.policyViolation m) :=
  ⟨by decide,
   C10_policy_is_suffix_matching envEmptyLists "search/stories" none [] (by decide)⟩

/-- Fixture network: every request fails with an HTTP 422 error. -/
def envRemoteFail : ApiEnv := ⟨some "token-fixture", fun _ => Except.error "422 Unprocessable Entity"⟩

/-- C1 counterexample: with no token configured, list-projects raises a
ConfigurationError (a ValueError) that escapes handle_call_tool as an
unhandled fault instead of being converted to an API-request-failed Text
block: the except clause catches only httpx.HTTPError. -/
theorem C1_counterexample :
    handle_call_tool envNoToken "list-projects" (some [("page", Json.num 1)]) =
      (Except.error (ShortcutError.configurationError
        "SHORTCUT_API_TOKEN environment variable not set"), []) := rfl

/-- C1 amended: only httpx.HTTPError (RemoteError) is caught at the
dispatcher boundary and converted into the single API-request-failed Text
block; every error that escapes handle_call_tool is a non-HTTP error
(PolicyViolation, ConfigurationError, MissingField, TypeError, the
missing-arguments ValueError or the unknown-tool ValueError). -/
theorem C1_amended_catch_boundary (env : ApiEnv) (nm : String) (arguments : Option Args) :
    (∀ e calls, handle_call_tool env nm arguments = (Except.error e, calls) →
      e.isHTTPError = false) ∧
    (∀ e calls, argsFalsy arguments = false →
      call_tool_body env nm (arguments.getD []) = (Except.error e, calls) →
      e.isHTTPError = true →
      handle_call_tool env nm arguments =
        (Except.ok ["API request failed: " ++ e.pyMessage], calls)) := by
  constructor
  · intro e calls h
    unfold handle_call_tool at h
    split at h
    · have he : Except.error ShortcutError.missingArguments = Except.error e :=
        congrArg Prod.fst h
      injection he with he
      rw [← he]
      rfl
    · split at h
      · rename_i e' calls' heq
        split at h
        · exact Except.noConfusion (congrArg Prod.fst h)
        · rename_i hhttp
          have he : Except.error e' = Except.error e := congrArg Prod.fst h
          injection he with he
          rw [← he]
          exact Bool.eq_false_iff.mpr hhttp
      · exact Except.noConfusion (congrArg Prod.fst h)
  · intro e calls hargs hbody hhttp
    unfold handle_call_tool
    rw [if_neg (by simp [hargs]), hbody]
    simp [hhttp]

theorem C1_amended_catch_boundary_witness :
    argsFalsy (some [("page", Json.num 1)]) = false ∧
    handle_call_tool envRemoteFail "list-projects" (some [("page", Json.num 1)]) =
      (Except.ok ["API request failed: 422 Unprocessable Entity"],
       [⟨"GET", "projects", none, []⟩]) :=
  ⟨rfl,
   (C1_amended_catch_boundary envRemoteFail "list-projects" (some [("page", Json.num 1)])).2
     (ShortcutError.remoteError "422 Unprocessable Entity") [⟨"GET", "projects", none, []⟩]
     rfl rfl rfl⟩

/-- C5 counterexample: create-epic with only the name argument raises a
KeyError for "description" that escapes uncaught — no error Text block is
returned (the result is not an ok block list) — and no network call is
issued (the call list is empty). -/
theorem C5_counterexample :
    handle_call_tool envEmptyLists "create-epic" (some [("name", Json.str "E")]) =
      (Except.error (ShortcutError.missingField "description"), []) := rfl

/-- C5 amended: for every environment and every value of the name
argument, create-epic without the required description fails with an
escaping KeyError on "description" (not a formatted InvalidInput error
block), and issues no network call. -/
theorem C5_amended_create_epic_keyerror (env : ApiEnv) (v : Json) :
    handle_call_tool env "create-epic" (some [("name", v)]) =
      (Except.error (ShortcutError.missingField "description"), []) := rfl

/-- C6 counterexample: callTool("unknown-tool", empty map) fails with the
missing-arguments ValueError, not with the unknown-tool error, because
the arguments check precedes the name dispatch. -/
theorem C6_counterexample :
    (handle_call_tool envEmptyLists "unknown-tool" (some [])).1 =
      Except.error ShortcutError.missingArguments ∧
    ShortcutError.missingArguments ≠ ShortcutError.unknownTool "unknown-tool" :=
  ⟨rfl, by decide⟩

/-- C6 amended: for every name outside the Tool Catalog and non-empty
arguments, callTool fails with the unknown-tool ValueError carrying the
offending name and issues no network call; with an absent or empty
argument map the missing-arguments ValueError is raised first instead. -/
theorem C6_amended_unknown_tool (env : ApiEnv) (nm : String) (arguments : Option Args)
    (hname : nm ∉ toolNames) (hargs : argsFalsy arguments = false) :
    handle_call_tool env nm arguments = (Except.error (ShortcutError.unknownTool nm), []) := by
  simp only [toolNames, toolCatalog, List.map_cons, List.map_nil, List.mem_cons,
    List.not_mem_nil, or_false] at hname
  push_neg at hname
  obtain ⟨n1, n2, n3, n4, n5, n6, n7, n8⟩ := hname
  have hbody : call_tool_body env nm (arguments.getD []) =
      (Except.error (ShortcutError.unknownTool nm), []) := by
    unfold call_tool_body
    rw [if_neg (by simp [n1]), if_neg (by simp [n2]), if_neg (by simp [n3]),
      if_neg (by simp [n4]), if_neg (by simp [n5]), if_neg (by simp [n6]),
      if_neg (by simp [n7]), if_neg (by simp [n8])]
  unfold handle_call_tool
  rw [if_neg (by simp [hargs]), hbody]
  rfl

theorem C6_amended_unknown_tool_witness :
    "unknown-tool" ∉ toolNames ∧ argsFalsy (some [("a", Json.null)]) = false ∧
    handle_call_tool envEmptyLists "unknown-tool" (some [("a", Json.null)]) =
      (Except.error (ShortcutError.unknownTool "unknown-tool"), []) :=
  ⟨by decide, rfl,
   C6_amended_unknown_tool envEmptyLists "unknown-tool" (some [("a", Json.null)])
     (by decide) rfl⟩

/-- Every error of format_objective is a KeyError (missing field). -/
lemma format_objective_error_kind (j : Json) (e : ShortcutError)
    (h : format_objective j = Except.error e) : ∃ k, e = ShortcutError.missingField k := by
  unfold format_objective at h
  split at h
  · exact ⟨"name", by injection h with h; exact h.symm⟩
  · cases h

/-- Every error of format_epic is a KeyError (missing field). -/
lemma format_epic_error_kind (j : Json) (e : ShortcutError)
    (h : format_epic j = Except.error e) : ∃ k, e = ShortcutError.missingField k := by
  unfold format_epic at h
  split at h
  · exact ⟨"name", by injection h with h; exact h.symm⟩
  · cases h

/-- Every error of format_story is a KeyError (missing field). -/
lemma format_story_error_kind (j : Json) (e : ShortcutError)
    (h : format_story j = Except.error e) : ∃ k, e = ShortcutError.missingField k := by
  unfold format_story at h
  split at h
  · exact ⟨"id", by injection h with h; exact h.symm⟩
  · split at h
    · exact ⟨"name", by injection h with h; exact h.symm⟩
    · cases h

/-- Every error of format_project is a KeyError (missing field). -/
lemma format_project_error_kind (j : Json) (e : ShortcutError)
    (h : format_project j = Except.error e) : ∃ k, e = ShortcutError.missingField k := by
  unfold format_project at h
  split at h
  · exact ⟨"id", by injection h with h; exact h.symm⟩
  · split at h
    · exact ⟨"name", by injection h with h; exact h.symm⟩
    · cases h

/-- Every error of format_state is a KeyError (missing field). -/
lemma format_state_error_kind (j : Json) (e : ShortcutError)
    (h : format_state j = Except.error e) : ∃ k, e = ShortcutError.missingField k := by
  unfold format_state at h
  split at h
  · exact ⟨"name", by injection h with h; exact h.symm⟩
  · split at h
    · exact ⟨"id", by injection h with h; exact h.symm⟩
    · cases h

/-- mapExcept propagates only the error kinds its element function can
produce. -/
lemma mapExcept_error_kind (f : Json → Except ShortcutError String)
    (hf : ∀ j e, f j = Except.error e → ∃ k, e = ShortcutError.missingField k) :
    ∀ xs e, mapExcept f xs = Except.error e → ∃ k, e = ShortcutError.missingField k := by
  intro xs
  induction xs with
  | nil => intro e h; unfold mapExcept at h; cases h
  | cons x xs ih =>
    intro e h
    unfold mapExcept at h
    split at h
    · rename_i e' heq
      injection h with h
      exact h ▸ hf x e' heq
    · split at h
      · rename_i e2 heq2
        injection h with h
        exact h ▸ ih e2 heq2
      · cases h

/-- Every error of format_workflow is a KeyError (missing field). -/
lemma format_workflow_error_kind (j : Json) (e : ShortcutError)
    (h : format_workflow j = Except.error e) : ∃ k, e = ShortcutError.missingField k := by
  unfold format_workflow at h
  split at h
  · rename_i e' heq
    injection h with h
    exact h ▸ mapExcept_error_kind format_state format_state_error_kind _ e' heq
  · split at h
    · exact ⟨"name", by injection h with h; exact h.symm⟩
    · cases h

/-- The API client never raises the missing-arguments ValueError. -/
lemma make_shortcut_request_no_missing_arguments (env : ApiEnv) (m ep : String)
    (jb : Option Json) (p : List (String × Json)) :
    (make_shortcut_request env m ep jb p).1 ≠ Except.error ShortcutError.missingArguments := by
  intro h
  rcases make_shortcut_request_error_kind env m ep jb p _ h with ⟨m2, hm⟩ | ⟨m2, hm⟩ | ⟨m2, hm⟩ <;>
    cases hm

/-- The search-stories handler never raises the missing-arguments
ValueError. -/
lemma search_stories_no_ma (env : ApiEnv) (args : Args) :
    (call_tool_body env "search-stories" args).1 ≠ Except.error ShortcutError.missingArguments := by
  intro h
  unfold call_tool_body thenFormat at h
  rw [if_pos (show ("search-stories" == "search-stories") = true from rfl)] at h
  try dsimp only at h
  split at h
  · rename_i e' calls' heq
    injection h with h
    exact make_shortcut_request_no_missing_arguments _ _ _ _ _
      (by rw [heq]; exact congrArg Except.error h)
  · try dsimp only at h
    split at h
    · cases h
    · split at h
      · split at h
        · rename_i e2 heq2
          injection h with h
          rcases mapExcept_error_kind _ format_story_error_kind _ _ (h ▸ heq2) with ⟨k, hk⟩
          cases hk
        · cases h
      · exact ShortcutError.noConfusion (Except.error.inj h)

lemma create_story_no_ma (env : ApiEnv) (args : Args) :
    (call_tool_body env "create-story" args).1 ≠ Except.error ShortcutError.missingArguments := by
  intro h
  unfold call_tool_body thenFormat requireArg at h
  rw [if_neg (by decide),
    if_pos (show ("create-story" == "create-story") = true from rfl)] at h
  split at h
  · exact ShortcutError.noConfusion (Except.error.inj h)
  · try dsimp only at h
    split at h
    · exact ShortcutError.noConfusion (Except.error.inj h)
    · try dsimp only at h
      split at h
      · exact ShortcutError.noConfusion (Except.error.inj h)
      · try dsimp only at h
        split at h
        · exact ShortcutError.noConfusion (Except.error.inj h)
        · try dsimp only at h
          split at h
          · rename_i e' calls' heq
            injection h with h
            exact make_shortcut_request_no_missing_arguments _ _ _ _ _
              (by rw [heq]; exact congrArg Except.error h)
          · try dsimp only at h
            split at h
            · rename_i e2 heq2
              injection h with h
              rcases format_story_error_kind _ _ (h ▸ heq2) with ⟨k, hk⟩
              cases hk
            · cases h

lemma list_projects_no_ma (env : ApiEnv) (args : Args) :
    (call_tool_body env "list-projects" args).1 ≠ Except.error ShortcutError.missingArguments := by
  intro h
  unfold call_tool_body thenFormat at h
  rw [if_neg (by decide), if_neg (by decide),
    if_pos (show ("list-projects" == "list-projects") = true from rfl)] at h
  split at h
  · rename_i e' calls' heq
    injection h with h
    exact make_shortcut_request_no_missing_arguments _ _ _ _ _
      (by rw [heq]; exact congrArg Except.error h)
  · try dsimp only at h
    split at h
    · split at h
      · rename_i e2 heq2
        injection h with h
        rcases mapExcept_error_kind _ format_project_error_kind _ _ (h ▸ heq2) with ⟨k, hk⟩
        cases hk
      · cases h
    · exact ShortcutError.noConfusion (Except.error.inj h)

lemma list_workflows_no_ma (env : ApiEnv) (args : Args) :
    (call_tool_body env "list-workflows" args).1 ≠ Except.error ShortcutError.missingArguments := by
  intro h
  unfold call_tool_body thenFormat at h
  rw [if_neg (by decide), if_neg (by decide), if_neg (by decide),
    if_pos (show ("list-workflows" == "list-workflows") = true from rfl)] at h
  split at h
  · rename_i e' calls' heq
    injection h with h
    exact make_shortcut_request_no_missing_arguments _ _ _ _ _
      (by rw [heq]; exact congrArg Except.error h)
  · try dsimp only at h
    split at h
    · split at h
      · rename_i e2 heq2
        injection h with h
        rcases mapExcept_error_kind _ format_workflow_error_kind _ _ (h ▸ heq2) with ⟨k, hk⟩
        cases hk
      · cases h
    · exact ShortcutError.noConfusion (Except.error.inj h)

lemma list_objectives_no_ma (env : ApiEnv) (args : Args) :
    (call_tool_body env "list-objectives" args).1 ≠ Except.error ShortcutError.missingArguments := by
  intro h
  unfold call_tool_body thenFormat at h
  rw [if_neg (by decide), if_neg (by decide), if_neg (by decide), if_neg (by decide),
    if_pos (show ("list-objectives" == "list-objectives") = true from rfl)] at h
  try dsimp only at h
  split at h
  · rename_i e' calls' heq
    injection h with h
    exact make_shortcut_request_no_missing_arguments _ _ _ _ _
      (by rw [heq]; exact congrArg Except.error h)
  · try dsimp only at h
    split at h
    · cases h
    · split at h
      · split at h
        · rename_i e2 heq2
          injection h with h
          rcases mapExcept_error_kind _ format_objective_error_kind _ _ (h ▸ heq2) with ⟨k, hk⟩
          cases hk
        · cases h
      · exact ShortcutError.noConfusion (Except.error.inj h)

lemma create_objective_no_ma (env : ApiEnv) (args : Args) :
    (call_tool_body env "create-objective" args).1 ≠ Except.error ShortcutError.missingArguments := by
  intro h
  unfold call_tool_body thenFormat requireArg at h
  rw [if_neg (by decide), if_neg (by decide), if_neg (by decide), if_neg (by decide),
    if_neg (by decide),
    if_pos (show ("create-objective" == "create-objective") = true from rfl)] at h
  split at h
  · exact ShortcutError.noConfusion (Except.error.inj h)
  · try dsimp only at h
    split at h
    · exact ShortcutError.noConfusion (Except.error.inj h)
    · try dsimp only at h
      split at h
      · exact ShortcutError.noConfusion (Except.error.inj h)
      · try dsimp only at h
        split at h
        · rename_i e' calls' heq
          injection h with h
          exact make_shortcut_request_no_missing_arguments _ _ _ _ _
            (by rw [heq]; exact congrArg Except.error h)
        · try dsimp only at h
          split at h
          · rename_i e2 heq2
            injection h with h
            rcases format_objective_error_kind _ _ (h ▸ heq2) with ⟨k, hk⟩
            cases hk
          · cases h

lemma list_epics_no_ma (env : ApiEnv) (args : Args) :
    (call_tool_body env "list-epics" args).1 ≠ Except.error ShortcutError.missingArguments := by
  intro h
  unfold call_tool_body thenFormat at h
  rw [if_neg (by decide), if_neg (by decide), if_neg (by decide), if_neg (by decide),
    if_neg (by decide), if_neg (by decide),
    if_pos (show ("list-epics" == "list-epics") = true from rfl)] at h
  try dsimp only at h
  split at h
  · rename_i e' calls' heq
    injection h with h
    exact make_shortcut_request_no_missing_arguments _ _ _ _ _
      (by rw [heq]; exact congrArg Except.error h)
  · try dsimp only at h
    split at h
    · cases h
    · split at h
      · split at h
        · rename_i e2 heq2
          injection h with h
          rcases mapExcept_error_kind _ format_epic_error_kind _ _ (h ▸ heq2) with ⟨k, hk⟩
          cases hk
        · cases h
      · exact ShortcutError.noConfusion (Except.error.inj h)

lemma create_epic_no_ma (env : ApiEnv) (args : Args) :
    (call_tool_body env "create-epic" args).1 ≠ Except.error ShortcutError.missingArguments := by
  intro h
  unfold call_tool_body thenFormat requireArg at h
  rw [if_neg (by decide), if_neg (by decide), if_neg (by decide), if_neg (by decide),
    if_neg (by decide), if_neg (by decide), if_neg (by decide),
    if_pos (show ("create-epic" == "create-epic") = true from rfl)] at h
  split at h
  · exact ShortcutError.noConfusion (Except.error.inj h)
  · try dsimp only at h
    split at h
    · exact ShortcutError.noConfusion (Except.error.inj h)
    · try dsimp only at h
      split at h
      · rename_i e' calls' heq
        injection h with h
        exact make_shortcut_request_no_missing_arguments _ _ _ _ _
          (by rw [heq]; exact congrArg Except.error h)
      · try dsimp only at h
        split at h
        · rename_i e2 heq2
          injection h with h
          rcases format_epic_error_kind _ _ (h ▸ heq2) with ⟨k, hk⟩
          cases hk
        · cases h

/-- The try-block body never raises the missing-arguments ValueError:
that error is raised only before the try block, independent of the tool. -/
lemma call_tool_body_no_missing_arguments (env : ApiEnv) (nm : String) (args : Args) :
    (call_tool_body env nm args).1 ≠ Except.error ShortcutError.missingArguments := by
  by_cases h1 : nm = "search-stories"
  · exact h1 ▸ search_stories_no_ma env args
  by_cases h2 : nm = "create-story"
  · exact h2 ▸ create_story_no_ma env args
  by_cases h3 : nm = "list-projects"
  · exact h3 ▸ list_projects_no_ma env args
  by_cases h4 : nm = "list-workflows"
  · exact h4 ▸ list_workflows_no_ma env args
  by_cases h5 : nm = "list-objectives"
  · exact h5 ▸ list_objectives_no_ma env args
  by_cases h6 : nm = "create-objective"
  · exact h6 ▸ create_objective_no_ma env args
  by_cases h7 : nm = "list-epics"
  · exact h7 ▸ list_epics_no_ma env args
  by_cases h8 : nm = "create-epic"
  · exact h8 ▸ create_epic_no_ma env args
  intro h
  unfold call_tool_body at h
  rw [if_neg (by simp [h1]), if_neg (by simp [h2]), if_neg (by simp [h3]),
    if_neg (by simp [h4]), if_neg (by simp [h5]), if_neg (by simp [h6]),
    if_neg (by simp [h7]), if_neg (by simp [h8])] at h
  exact ShortcutError.noConfusion (Except.error.inj h)

/-- C4 counterexample: list-projects declares no required fields in the
catalog, yet callTool("list-projects", empty map) fails with the
missing-arguments ValueError, contradicting the claim that an absent or
empty argument map is not a failure for such tools. -/
theorem C4_counterexample :
    (toolCatalog.any (fun t => t.name == "list-projects" && t.required.isEmpty)) = true ∧
    (handle_call_tool envEmptyLists "list-projects" (some [])).1 =
      Except.error ShortcutError.missingArguments :=
  ⟨rfl, rfl⟩

/-- C4 amended: callTool fails with the missing-arguments ValueError —
the only input-validation failure the dispatcher implements — exactly
when the argument map is absent or empty, regardless of the named tool;
no declared-required-field or enum validation happens at this boundary. -/
theorem C4_amended_validation (env : ApiEnv) (nm : String) (arguments : Option Args) :
    (argsFalsy arguments = true →
      handle_call_tool env nm arguments = (Except.error ShortcutError.missingArguments, [])) ∧
    (argsFalsy arguments = false →
      (handle_call_tool env nm arguments).1 ≠ Except.error ShortcutError.missingArguments) := by
  constructor
  · intro h
    unfold handle_call_tool
    rw [if_pos h]
  · intro h hcontra
    unfold handle_call_tool at hcontra
    rw [if_neg (by simp [h])] at hcontra
    split at hcontra
    · rename_i e' calls' heq
      split at hcontra
      · exact Except.noConfusion hcontra
      · injection hcontra with he
        exact call_tool_body_no_missing_arguments env nm (arguments.getD [])
          (by rw [heq]; exact congrArg Except.error he)
    · exact Except.noConfusion hcontra

theorem C4_amended_validation_witness :
    (argsFalsy (some []) = true ∧
      handle_call_tool envEmptyLists "list-projects" (some []) =
        (Except.error ShortcutError.missingArguments, [])) ∧
    (argsFalsy (some [("query", Json.str "x")]) = false ∧
      (handle_call_tool envEmptyLists "search-stories" (some [("query", Json.str "x")])).1 ≠
        Except.error ShortcutError.missingArguments) :=
  ⟨⟨rfl, (C4_amended_validation envEmptyLists "list-projects" (some [])).1 rfl⟩,
   ⟨rfl, (C4_amended_validation envEmptyLists "search-stories"
     (some [("query", Json.str "x")])).2 rfl⟩⟩

/-- C7 amended: on a zero-length remote list, search-stories,
list-objectives and list-epics yield descriptive no-results Text blocks
(for search-stories containing the query text), distinct from an error;
list-projects and list-workflows have no empty-result branch and return
only their section header with no records and no no-results message. -/
theorem C7_amended_empty_results (env : ApiEnv) (htok : tokenMissing env = false) :
    (∀ q : String,
      env.net ⟨"GET", "search/stories", none, [("query", Json.str q)]⟩ =
        Except.ok (Json.obj [("data", Json.arr [])]) →
      (handle_call_tool env "search-stories" (some [("query", Json.str q)])).1 =
        Except.ok ["No stories found matching query: " ++ q]) ∧
    (env.net ⟨"GET", "objectives", none, []⟩ = Except.ok (Json.arr []) →
      (handle_call_tool env "list-objectives" (some [("page", Json.num 1)])).1 =
        Except.ok ["No objectives found"]) ∧
    (env.net ⟨"GET", "epics", none, []⟩ = Except.ok (Json.arr []) →
      (handle_call_tool env "list-epics" (some [("page", Json.num 1)])).1 =
        Except.ok ["No epics found"]) ∧
    (env.net ⟨"GET", "projects", none, []⟩ = Except.ok (Json.arr []) →
      (handle_call_tool env "list-projects" (some [("page", Json.num 1)])).1 =
        Except.ok ["Available projects:\n\n"]) ∧
    (env.net ⟨"GET", "workflows", none, []⟩ = Except.ok (Json.arr []) →
      (handle_call_tool env "list-workflows" (some [("page", Json.num 1)])).1 =
        Except.ok ["Available workflows and states:\n\n"]) := by
  refine ⟨?_, ?_, ?_, ?_, ?_⟩
  · intro q hnet
    have hreq : make_shortcut_request env "GET" "search/stories" none [("query", Json.str q)] =
        (Except.ok (Json.obj [("data", Json.arr [])]),
         [⟨"GET", "search/stories", none, [("query", Json.str q)]⟩]) := by
      unfold make_shortcut_request
      rw [if_neg (by decide), if_neg (by decide), if_neg (by simp [htok])]
      dsimp only
      rw [hnet]
    have hbody : call_tool_body env "search-stories" [("query", Json.str q)] =
        (Except.ok ["No stories found matching query: " ++ q],
         [⟨"GET", "search/stories", none, [("query", Json.str q)]⟩]) := by
      unfold call_tool_body thenFormat
      rw [if_pos (show ("search-stories" == "search-stories") = true from rfl)]
      dsimp only
      rw [show (dictGet [("query", Json.str q)] "query").getD Json.null = Json.str q from rfl]
      rw [hreq]
      rfl
    unfold handle_call_tool
    rw [if_neg (show ¬_ = true from fun hc => Bool.noConfusion hc)]
    simp only [Option.getD_some]
    rw [hbody]
  · intro hnet
    have hreq : make_shortcut_request env "GET" "objectives" none [] =
        (Except.ok (Json.arr []), [⟨"GET", "objectives", none, []⟩]) := by
      unfold make_shortcut_request
      rw [if_neg (by decide), if_neg (by decide), if_neg (by simp [htok])]
      dsimp only
      rw [hnet]
    have hbody : call_tool_body env "list-objectives" [("page", Json.num 1)] =
        (Except.ok ["No objectives found"], [⟨"GET", "objectives", none, []⟩]) := by
      unfold call_tool_body thenFormat
      rw [if_neg (by decide), if_neg (by decide), if_neg (by decide), if_neg (by decide),
        if_pos (show ("list-objectives" == "list-objectives") = true from rfl)]
      dsimp only
      rw [show dictGet [("page", Json.num 1)] "status" = none from rfl]
      dsimp only
      rw [hreq]
      rfl
    unfold handle_call_tool
    rw [if_neg (show ¬_ = true from fun hc => Bool.noConfusion hc)]
    simp only [Option.getD_some]
    rw [hbody]
  · intro hnet
    have hreq : make_shortcut_request env "GET" "epics" none [] =
        (Except.ok (Json.arr []), [⟨"GET", "epics", none, []⟩]) := by
      unfold make_shortcut_request
      rw [if_neg (by decide), if_neg (by decide), if_neg (by simp [htok])]
      dsimp only
      rw [hnet]
    have hbody : call_tool_body env "list-epics" [("page", Json.num 1)] =
        (Except.ok ["No epics found"], [⟨"GET", "epics", none, []⟩]) := by
      unfold call_tool_body thenFormat
      rw [if_neg (by decide), if_neg (by decide), if_neg (by decide), if_neg (by decide),
        if_neg (by decide), if_neg (by decide),
        if_pos (show ("list-epics" == "list-epics") = true from rfl)]
      dsimp only
      rw [show dictGet [("page", Json.num 1)] "status" = none from rfl]
      dsimp only
      rw [hreq]
      rfl
    unfold handle_call_tool
    rw [if_neg (show ¬_ = true from fun hc => Bool.noConfusion hc)]
    simp only [Option.getD_some]
    rw [hbody]
  · intro hnet
    have hreq : make_shortcut_request env "GET" "projects" none [] =
        (Except.ok (Json.arr []), [⟨"GET", "projects", none, []⟩]) := by
      unfold make_shortcut_request
      rw [if_neg (by decide), if_neg (by decide), if_neg (by simp [htok])]
      dsimp only
      rw [hnet]
    have hbody : call_tool_body env "list-projects" [("page", Json.num 1)] =
        (Except.ok ["Available projects:\n\n"], [⟨"GET", "projects", none, []⟩]) := by
      unfold call_tool_body thenFormat
      rw [if_neg (by decide), if_neg (by decide),
        if_pos (show ("list-projects" == "list-projects") = true from rfl)]
      rw [hreq]
      rfl
    unfold handle_call_tool
    rw [if_neg (show ¬_ = true from fun hc => Bool.noConfusion hc)]
    simp only [Option.getD_some]
    rw [hbody]
  · intro hnet
    have hreq : make_shortcut_request env "GET" "workflows" none [] =
        (Except.ok (Json.arr []), [⟨"GET", "workflows", none, []⟩]) := by
      unfold make_shortcut_request
      rw [if_neg (by decide), if_neg (by decide), if_neg (by simp [htok])]
      dsimp only
      rw [hnet]
    have hbody : call_tool_body env "list-workflows" [("page", Json.num 1)] =
        (Except.ok ["Available workflows and states:\n\n"], [⟨"GET", "workflows", none, []⟩]) := by
      unfold call_tool_body thenFormat
      rw [if_neg (by decide), if_neg (by decide), if_neg (by decide),
        if_pos (show ("list-workflows" == "list-workflows") = true from rfl)]
      rw [hreq]
      rfl
    unfold handle_call_tool
    rw [if_neg (show ¬_ = true from fun hc => Bool.noConfusion hc)]
    simp only [Option.getD_some]
    rw [hbody]

/-- C8: a search-stories response with n records is formatted from
exactly the first min(n, 10) records in response order (the formatted
list has length min n 10), while list-projects, list-workflows,
list-objectives and list-epics format all returned records without
truncation (formatted length equals record count). -/
theorem C8_truncation (env : ApiEnv) (htok : tokenMissing env = false) :
    (∀ q stories fs,
      env.net ⟨"GET", "search/stories", none, [("query", Json.str q)]⟩ =
        Except.ok (Json.obj [("data", Json.arr stories)]) →
      stories ≠ [] →
      mapExcept format_story (stories.take 10) = Except.ok fs →
      (handle_call_tool env "search-stories" (some [("query", Json.str q)])).1 =
        Except.ok ["Found stories:\n\n" ++ String.intercalate "\n" fs] ∧
      fs.length = min stories.length 10) ∧
    (∀ ps fs,
      env.net ⟨"GET", "projects", none, []⟩ = Except.ok (Json.arr ps) →
      mapExcept format_project ps = Except.ok fs →
      (handle_call_tool env "list-projects" (some [("page", Json.num 1)])).1 =
        Except.ok ["Available projects:\n\n" ++ String.intercalate "\n" fs] ∧
      fs.length = ps.length) ∧
    (∀ ws fs,
      env.net ⟨"GET", "workflows", none, []⟩ = Except.ok (Json.arr ws) →
      mapExcept format_workflow ws = Except.ok fs →
      (handle_call_tool env "list-workflows" (some [("page", Json.num 1)])).1 =
        Except.ok ["Available workflows and states:\n\n" ++ String.intercalate "\n" fs] ∧
      fs.length = ws.length) ∧
    (∀ os fs,
      env.net ⟨"GET", "objectives", none, []⟩ = Except.ok (Json.arr os) →
      os ≠ [] →
      mapExcept format_objective os = Except.ok fs →
      (handle_call_tool env "list-objectives" (some [("page", Json.num 1)])).1 =
        Except.ok ["Objectives:\n\n" ++ String.intercalate "\n" fs] ∧
      fs.length = os.length) ∧
    (∀ es fs,
      env.net ⟨"GET", "epics", none, []⟩ = Except.ok (Json.arr es) →
      es ≠ [] →
      mapExcept format_epic es = Except.ok fs →
      (handle_call_tool env "list-epics" (some [("page", Json.num 1)])).1 =
        Except.ok ["Epics:\n\n" ++ String.intercalate "\n" fs] ∧
      fs.length = es.length) := by
  refine ⟨?_, ?_, ?_, ?_, ?_⟩
  · intro q stories fs hnet hne hmap
    obtain ⟨s, ss, rfl⟩ : ∃ s ss, stories = s :: ss := by
      cases stories with
      | nil => exact absurd rfl hne
      | cons s ss => exact ⟨s, ss, rfl⟩
    have hreq : make_shortcut_request env "GET" "search/stories" none [("query", Json.str q)] =
        (Except.ok (Json.obj [("data", Json.arr (s :: ss))]),
         [⟨"GET", "search/stories", none, [("query", Json.str q)]⟩]) := by
      unfold make_shortcut_request
      rw [if_neg (by decide), if_neg (by decide), if_neg (by simp [htok])]
      try dsimp only
      rw [hnet]
    constructor
    · have hbody : call_tool_body env "search-stories" [("query", Json.str q)] =
          (Except.ok ["Found stories:\n\n" ++ String.intercalate "\n" fs],
           [⟨"GET", "search/stories", none, [("query", Json.str q)]⟩]) := by
        unfold call_tool_body thenFormat
        rw [if_pos (show ("search-stories" == "search-stories") = true from rfl)]
        try dsimp only
        rw [show (dictGet [("query", Json.str q)] "query").getD Json.null = Json.str q from rfl]
        rw [hreq]
        try dsimp only
        rw [show ((Json.obj [("data", Json.arr (s :: ss))]).lookup "data").getD (Json.arr []) =
          Json.arr (s :: ss) from rfl]
        rw [if_neg (show ¬(Json.arr (s :: ss)).falsy = true from fun hc => Bool.noConfusion hc)]
        try dsimp only
        rw [hmap]
      unfold handle_call_tool
      rw [if_neg (show ¬_ = true from fun hc => Bool.noConfusion hc)]
      simp only [Option.getD_some]
      rw [hbody]
    · rw [mapExcept_ok_length _ _ _ hmap, List.length_take]
      omega
  · intro ps fs hnet hmap
    have hreq : make_shortcut_request env "GET" "projects" none [] =
        (Except.ok (Json.arr ps), [⟨"GET", "projects", none, []⟩]) := by
      unfold make_shortcut_request
      rw [if_neg (by decide), if_neg (by decide), if_neg (by simp [htok])]
      try dsimp only
      rw [hnet]
    refine ⟨?_, mapExcept_ok_length _ _ _ hmap⟩
    have hbody : call_tool_body env "list-projects" [("page", Json.num 1)] =
        (Except.ok ["Available projects:\n\n" ++ String.intercalate "\n" fs],
         [⟨"GET", "projects", none, []⟩]) := by
      unfold call_tool_body thenFormat
      rw [if_neg (by decide), if_neg (by decide),
        if_pos (show ("list-projects" == "list-projects") = true from rfl)]
      rw [hreq]
      try dsimp only
      rw [hmap]
    unfold handle_call_tool
    rw [if_neg (show ¬_ = true from fun hc => Bool.noConfusion hc)]
    simp only [Option.getD_some]
    rw [hbody]
  · intro ws fs hnet hmap
    have hreq : make_shortcut_request env "GET" "workflows" none [] =
        (Except.ok (Json.arr ws), [⟨"GET", "workflows", none, []⟩]) := by
      unfold make_shortcut_request
      rw [if_neg (by decide), if_neg (by decide), if_neg (by simp [htok])]
      try dsimp only
      rw [hnet]
    refine ⟨?_, mapExcept_ok_length _ _ _ hmap⟩
    have hbody : call_tool_body env "list-workflows" [("page", Json.num 1)] =
        (Except.ok ["Available workflows and states:\n\n" ++ String.intercalate "\n" fs],
         [⟨"GET", "workflows", none, []⟩]) := by
      unfold call_tool_body thenFormat
      rw [if_neg (by decide), if_neg (by decide), if_neg (by decide),
        if_pos (show ("list-workflows" == "list-workflows") = true from rfl)]
      rw [hreq]
      try dsimp only
      rw [hmap]
    unfold handle_call_tool
    rw [if_neg (show ¬_ = true from fun hc => Bool.noConfusion hc)]
    simp only [Option.getD_some]
    rw [hbody]
  · intro os fs hnet hne hmap
    obtain ⟨o, os2, rfl⟩ : ∃ o os2, os = o :: os2 := by
      cases os with
      | nil => exact absurd rfl hne
      | cons o os2 => exact ⟨o, os2, rfl⟩
    have hreq : make_shortcut_request env "GET" "objectives" none [] =
        (Except.ok (Json.arr (o :: os2)), [⟨"GET", "objectives", none, []⟩]) := by
      unfold make_shortcut_request
      rw [if_neg (by decide), if_neg (by decide), if_neg (by simp [htok])]
      try dsimp only
      rw [hnet]
    refine ⟨?_, mapExcept_ok_length _ _ _ hmap⟩
    have hbody : call_tool_body env "list-objectives" [("page", Json.num 1)] =
        (Except.ok ["Objectives:\n\n" ++ String.intercalate "\n" fs],
         [⟨"GET", "objectives", none, []⟩]) := by
      unfold call_tool_body thenFormat
      rw [if_neg (by decide), if_neg (by decide), if_neg (by decide), if_neg (by decide),
        if_pos (show ("list-objectives" == "list-objectives") = true from rfl)]
      try dsimp only
      rw [show dictGet [("page", Json.num 1)] "status" = none from rfl]
      try dsimp only
      rw [hreq]
      try dsimp only
      rw [if_neg (show ¬(Json.arr (o :: os2)).falsy = true from fun hc => Bool.noConfusion hc)]
      try dsimp only
      rw [hmap]
    unfold handle_call_tool
    rw [if_neg (show ¬_ = true from fun hc => Bool.noConfusion hc)]
    simp only [Option.getD_some]
    rw [hbody]
  · intro es fs hnet hne hmap
    obtain ⟨e1, es2, rfl⟩ : ∃ e1 es2, es = e1 :: es2 := by
      cases es with
      | nil => exact absurd rfl hne
      | cons e1 es2 => exact ⟨e1, es2, rfl⟩
    have hreq : make_shortcut_request env "GET" "epics" none [] =
        (Except.ok (Json.arr (e1 :: es2)), [⟨"GET", "epics", none, []⟩]) := by
      unfold make_shortcut_request
      rw [if_neg (by decide), if_neg (by decide), if_neg (by simp [htok])]
      try dsimp only
      rw [hnet]
    refine ⟨?_, mapExcept_ok_length _ _ _ hmap⟩
    have hbody : call_tool_body env "list-epics" [("page", Json.num 1)] =
        (Except.ok ["Epics:\n\n" ++ String.intercalate "\n" fs],
         [⟨"GET", "epics", none, []⟩]) := by
      unfold call_tool_body thenFormat
      rw [if_neg (by decide), if_neg (by decide), if_neg (by decide), if_neg (by decide),
        if_neg (by decide), if_neg (by decide),
        if_pos (show ("list-epics" == "list-epics") = true from rfl)]
      try dsimp only
      rw [show dictGet [("page", Json.num 1)] "status" = none from rfl]
      try dsimp only
      rw [hreq]
      try dsimp only
      rw [if_neg (show ¬(Json.arr (e1 :: es2)).falsy = true from fun hc => Bool.noConfusion hc)]
      try dsimp only
      rw [hmap]
    unfold handle_call_tool
    rw [if_neg (show ¬_ = true from fun hc => Bool.noConfusion hc)]
    simp only [Option.getD_some]
    rw [hbody]

/-- C9: create-story with name A, description B, story_type bug,
project_id 7 issues exactly one POST to the stories endpoint whose JSON
body is exactly those four fields, and on success returns a single Text
block containing the substring "Created new story" and the
remote-assigned story id rendered from the response record. -/
theorem C9_create_story (env : ApiEnv) (htok : tokenMissing env = false)
    (resp idv nmv : Json)
    (hnet : env.net ⟨"POST", "stories",
        some (Json.obj [("name", Json.str "A"), ("description", Json.str "B"),
          ("story_type", Json.str "bug"), ("project_id", Json.num 7)]), []⟩ = Except.ok resp)
    (hid : resp.lookup "id" = some idv) (hname : resp.lookup "name" = some nmv) :
    handle_call_tool env "create-story"
      (some [("name", Json.str "A"), ("description", Json.str "B"),
             ("story_type", Json.str "bug"), ("project_id", Json.num 7)]) =
      (Except.ok ["Created new story:\n\n" ++
        ("Story " ++ idv.pyStr ++ ": " ++ nmv.pyStr ++ "\n" ++
         "Status: " ++ nestedGetStr resp "workflow_state" "name" "Unknown" ++ "\n" ++
         "Type: " ++ jsonGetStr resp "story_type" "Unknown" ++ "\n" ++
         "Description: " ++ jsonGetStr resp "description" "No description" ++ "\n" ++
         "URL: " ++ jsonGetStr resp "app_url" "" ++ "\n" ++ "---")],
       [⟨"POST", "stories",
         some (Json.obj [("name", Json.str "A"), ("description", Json.str "B"),
           ("story_type", Json.str "bug"), ("project_id", Json.num 7)]), []⟩]) ∧
    strContains ("Created new story:\n\n" ++
        ("Story " ++ idv.pyStr ++ ": " ++ nmv.pyStr ++ "\n" ++
         "Status: " ++ nestedGetStr resp "workflow_state" "name" "Unknown" ++ "\n" ++
         "Type: " ++ jsonGetStr resp "story_type" "Unknown" ++ "\n" ++
         "Description: " ++ jsonGetStr resp "description" "No description" ++ "\n" ++
         "URL: " ++ jsonGetStr resp "app_url" "" ++ "\n" ++ "---"))
      "Created new story" = true ∧
    strContains ("Created new story:\n\n" ++
        ("Story " ++ idv.pyStr ++ ": " ++ nmv.pyStr ++ "\n" ++
         "Status: " ++ nestedGetStr resp "workflow_state" "name" "Unknown" ++ "\n" ++
         "Type: " ++ jsonGetStr resp "story_type" "Unknown" ++ "\n" ++
         "Description: " ++ jsonGetStr resp "description" "No description" ++ "\n" ++
         "URL: " ++ jsonGetStr resp "app_url" "" ++ "\n" ++ "---"))
      idv.pyStr = true := by
  have hfmt : format_story resp = Except.ok
      ("Story " ++ idv.pyStr ++ ": " ++ nmv.pyStr ++ "\n" ++
       "Status: " ++ nestedGetStr resp "workflow_state" "name" "Unknown" ++ "\n" ++
       "Type: " ++ jsonGetStr resp "story_type" "Unknown" ++ "\n" ++
       "Description: " ++ jsonGetStr resp "description" "No description" ++ "\n" ++
       "URL: " ++ jsonGetStr resp "app_url" "" ++ "\n" ++ "---") := by
    unfold format_story
    rw [hid, hname]
  have hreq : make_shortcut_request env "POST" "stories"
      (some (Json.obj [("name", Json.str "A"), ("description", Json.str "B"),
        ("story_type", Json.str "bug"), ("project_id", Json.num 7)])) [] =
      (Except.ok resp,
       [⟨"POST", "stories",
         some (Json.obj [("name", Json.str "A"), ("description", Json.str "B"),
           ("story_type", Json.str "bug"), ("project_id", Json.num 7)]), []⟩]) := by
    unfold make_shortcut_request
    rw [if_neg (by decide), if_neg (by decide), if_neg (by simp [htok])]
    try dsimp only
    rw [hnet]
  refine ⟨?_, ?_, ?_⟩
  · have hbody : call_tool_body env "create-story"
        [("name", Json.str "A"), ("description", Json.str "B"),
         ("story_type", Json.str "bug"), ("project_id", Json.num 7)] =
        (Except.ok ["Created new story:\n\n" ++
          ("Story " ++ idv.pyStr ++ ": " ++ nmv.pyStr ++ "\n" ++
           "Status: " ++ nestedGetStr resp "workflow_state" "name" "Unknown" ++ "\n" ++
           "Type: " ++ jsonGetStr resp "story_type" "Unknown" ++ "\n" ++
           "Description: " ++ jsonGetStr resp "description" "No description" ++ "\n" ++
           "URL: " ++ jsonGetStr resp "app_url" "" ++ "\n" ++ "---")],
         [⟨"POST", "stories",
           some (Json.obj [("name", Json.str "A"), ("description", Json.str "B"),
             ("story_type", Json.str "bug"), ("project_id", Json.num 7)]), []⟩]) := by
      unfold call_tool_body thenFormat requireArg
      rw [if_neg (by decide),
        if_pos (show ("create-story" == "create-story") = true from rfl)]
      rw [show dictGet [("name", Json.str "A"), ("description", Json.str "B"),
        ("story_type", Json.str "bug"), ("project_id", Json.num 7)] "name" =
        some (Json.str "A") from rfl]
      try dsimp only
      rw [show dictGet [("name", Json.str "A"), ("description", Json.str "B"),
        ("story_type", Json.str "bug"), ("project_id", Json.num 7)] "description" =
        some (Json.str "B") from rfl]
      try dsimp only
      rw [show dictGet [("name", Json.str "A"), ("description", Json.str "B"),
        ("story_type", Json.str "bug"), ("project_id", Json.num 7)] "story_type" =
        some (Json.str "bug") from rfl]
      try dsimp only
      rw [show dictGet [("name", Json.str "A"), ("description", Json.str "B"),
        ("story_type", Json.str "bug"), ("project_id", Json.num 7)] "project_id" =
        some (Json.num 7) from rfl]
      try dsimp only
      rw [hreq]
      try dsimp only
      rw [hfmt]
    unfold handle_call_tool
    rw [if_neg (show ¬_ = true from fun hc => Bool.noConfusion hc)]
    simp only [Option.getD_some]
    rw [hbody]
  · unfold strContains
    rw [String.data_append,
      show ("Created new story:\n\n" : String).data =
        ("Created new story" : String).data ++ ((":\n\n" : String).data) from rfl,
      List.append_assoc]
    exact charsInfix_append_self _ _
  · unfold strContains
    simp only [String.data_append, List.append_assoc]
    exact charsInfix_append_left _ _ _ (charsInfix_append_left _ _ _ (charsInfix_append_self _ _))

/-- Fixture network for empty-result tests: the search endpoint returns a
data object holding an empty list, every other endpoint a bare empty list. -/
def netEmptyFixture : NetCall → Except String Json := fun c =>
  if c.endpoint == "search/stories" then Except.ok (Json.obj [("data", Json.arr [])])
  else Except.ok (Json.arr [])

def envEmptyFixture : ApiEnv := ⟨some "token-fixture", netEmptyFixture⟩

/-- Fixture: fifteen story records, ids 0 through 14. -/
def stories15 : List Json :=
  (List.range 15).map (fun i => Json.obj [("id", Json.num (Int.ofNat i)), ("name", Json.str "s")])

def envStories15 : ApiEnv :=
  ⟨some "token-fixture", fun _ => Except.ok (Json.obj [("data", Json.arr stories15)])⟩

def fs15 : List String := ((mapExcept format_story (stories15.take 10)).toOption).getD []

/-- Fixture: the remote record returned for a created story. -/
def respStory : Json := Json.obj [("id", Json.num 42), ("name", Json.str "A")]

def envCreateStory : ApiEnv := ⟨some "token-fixture", fun _ => Except.ok respStory⟩

/-- C7 counterexample: list-projects on an empty remote list returns the
bare header block, which contains no no-results message at all (not even
the word "No"), refuting the claim for every list tool. -/
theorem C7_counterexample :
    (handle_call_tool envEmptyFixture "list-projects" (some [("page", Json.num 1)])).1 =
      Except.ok ["Available projects:\n\n"] ∧
    strContains "Available projects:\n\n" "No" = false :=
  ⟨rfl, rfl⟩

theorem C7_amended_empty_results_witness :
    tokenMissing envEmptyFixture = false ∧
    (handle_call_tool envEmptyFixture "search-stories" (some [("query", Json.str "login bug")])).1 =
      Except.ok ["No stories found matching query: login bug"] ∧
    strContains "No stories found matching query: login bug"
      "No stories found matching query: login bug" = true ∧
    (handle_call_tool envEmptyFixture "list-objectives" (some [("page", Json.num 1)])).1 =
      Except.ok ["No objectives found"] ∧
    (handle_call_tool envEmptyFixture "list-epics" (some [("page", Json.num 1)])).1 =
      Except.ok ["No epics found"] ∧
    (handle_call_tool envEmptyFixture "list-projects" (some [("page", Json.num 1)])).1 =
      Except.ok ["Available projects:\n\n"] ∧
    (handle_call_tool envEmptyFixture "list-workflows" (some [("page", Json.num 1)])).1 =
      Except.ok ["Available workflows and states:\n\n"] :=
  ⟨rfl,
   (C7_amended_empty_results envEmptyFixture rfl).1 "login bug" rfl,
   rfl,
   (C7_amended_empty_results envEmptyFixture rfl).2.1 rfl,
   (C7_amended_empty_results envEmptyFixture rfl).2.2.1 rfl,
   (C7_amended_empty_results envEmptyFixture rfl).2.2.2.1 rfl,
   (C7_amended_empty_results envEmptyFixture rfl).2.2.2.2 rfl⟩

theorem C8_truncation_witness :
    stories15.length = 15 ∧
    mapExcept format_story (stories15.take 10) = Except.ok fs15 ∧
    (handle_call_tool envStories15 "search-stories" (some [("query", Json.str "x")])).1 =
      Except.ok ["Found stories:\n\n" ++ String.intercalate "\n" fs15] ∧
    fs15.length = 10 :=
  ⟨rfl, rfl,
   ((C8_truncation envStories15 rfl).1 "x" stories15 fs15 rfl
     (fun h => Nat.noConfusion (congrArg List.length h)) rfl).1,
   rfl⟩

theorem C9_create_story_witness :
    tokenMissing envCreateStory = false ∧
    handle_call_tool envCreateStory "create-story"
      (some [("name", Json.str "A"), ("description", Json.str "B"),
             ("story_type", Json.str "bug"), ("project_id", Json.num 7)]) =
      (Except.ok ["Created new story:\n\nStory 42: A\nStatus: Unknown\nType: Unknown\nDescription: No description\nURL: \n---"],
       [⟨"POST", "stories",
         some (Json.obj [("name", Json.str "A"), ("description", Json.str "B"),
           ("story_type", Json.str "bug"), ("project_id", Json.num 7)]), []⟩]) ∧
    strContains
      "Created new story:\n\nStory 42: A\nStatus: Unknown\nType: Unknown\nDescription: No description\nURL: \n---"
      "Created new story" = true ∧
    strContains
      "Created new story:\n\nStory 42: A\nStatus: Unknown\nType: Unknown\nDescription: No description\nURL: \n---"
      "42" = true :=
  ⟨rfl,
   (C9_create_story envCreateStory rfl respStory (Json.num 42) (Json.str "A") rfl rfl rfl).1,
   (C9_create_story envCreateStory rfl respStory (Json.num 42) (Json.str "A") rfl rfl rfl).2.1,
   (C9_create_story envCreateStory rfl respStory (Json.num 42) (Json.str "A") rfl rfl rfl).2.2⟩
